import Mathlib

/-!
Shallow embedding of the CineFlow commerce pipeline
(`src/source/routes/orders.py`, `src/source/routes/carts.py`, and the
price-update part of `src/source/routes/movies.py`) over an explicit
database state.

Modelling conventions, each justified by the source:
* The database is a record of lists of rows; a SQLAlchemy
  `select(M).where(cond)` becomes `List.filter`, `.scalars().first()`
  becomes `.head?`, `.scalars().all()` is the filtered list, and
  `scalar_one_or_none()` is `.head?` as well.
* `db.add(x)` followed by `await db.commit()` makes the row durable at
  once; the handlers below thread the committed state explicitly, so a
  later rollback cannot remove rows committed earlier (this matters for
  `create_order`, which commits the Order row and then each OrderItem
  row in its own commit, orders.py lines 95-112, and for
  `remove_movie_from_cart`, which commits the delete before the
  moderator lookup, carts.py lines 342-357).
* Failure of an individual store/gateway/mailer operation is injected
  through explicit Boolean/`Option Nat` parameters, one per operation
  the source wraps in `try`/`except`.
* Rows carry exactly the fields the routes read or write; timestamps
  are omitted (no claim mentions them).  `PaymentModel` is constructed
  in pay_order with only `order_id`, `amount` and `status`
  (orders.py lines 358-360, 369-371), so the embedded `Payment` keeps
  `external_payment_id` as an `Option` that the route never sets.
* Status columns are the plain strings the routes compare and assign:
  "pending", "paid", "canceled" for orders and "successful",
  "cancelled" for payments.
* In carts.py the method names `cxecute` and `scalar().first()` are
  read as `execute` / `scalars().first()` (the queries themselves are
  unambiguous).  Semantically meaningful oddities are kept literally:
  the cart lookups `select(CartModel).where(user_id == user_id)`
  (carts.py lines 84, 324) compare the Python integer with itself, so
  they select the first cart of the whole table regardless of user,
  and the duplicate-item lookup (lines 93-94) filters only by
  `cart_id` (the `CartItemModel.user_id` column does not exist and no
  `movie_id` condition is present), so it finds any item of that cart.
-/

/-- Error outcome of a route handler: either a `fastapi.HTTPException`
with a status code and detail string, or an unhandled Python exception
(e.g. `AttributeError`) that FastAPI turns into a bare 500. -/
inductive Err where
  | http (code : Nat) (detail : String)
  | py (msg : String)
deriving DecidableEq, Repr

/-- Equality of handler outcomes is decidable (needed to settle the
concrete scenarios by evaluation). -/
instance instDecEqExcept {ε α : Type} [DecidableEq ε] [DecidableEq α] :
    DecidableEq (Except ε α) := fun x y =>
  match x, y with
  | Except.ok a, Except.ok b =>
    if h : a = b then isTrue (by rw [h])
    else isFalse (fun he => h (by cases he; rfl))
  | Except.error a, Except.error b =>
    if h : a = b then isTrue (by rw [h])
    else isFalse (fun he => h (by cases he; rfl))
  | Except.ok _, Except.error _ => isFalse (fun he => by cases he)
  | Except.error _, Except.ok _ => isFalse (fun he => by cases he)

/-- Catalog row, `MovieModel` (id, name, price).  Money columns
(`DECIMAL(10, 2)`) are modelled as exact integers (think cents): the
pipeline only ever copies, adds and compares them, never divides. -/
structure Movie where
  id : Nat
  name : String
  price : Int
deriving DecidableEq, Repr

/-- Account row, `UserModel` (only the fields the pipeline reads). -/
structure User where
  id : Nat
  email : String
deriving DecidableEq, Repr

/-- `CartModel`: one row per cart, `user_id` unique. -/
structure Cart where
  id : Nat
  user_id : Nat
deriving DecidableEq, Repr

/-- `CartItemModel`: a movie in a cart. -/
structure CartItem where
  id : Nat
  cart_id : Nat
  movie_id : Nat
deriving DecidableEq, Repr

/-- `PurchasedModel`: the purchase ledger, one row per (user, movie). -/
structure Purchased where
  user_id : Nat
  movie_id : Nat
deriving DecidableEq, Repr

/-- `OrderModel`: status is one of "pending", "paid", "canceled". -/
structure Order where
  id : Nat
  user_id : Nat
  status : String
  total_amount : Int
deriving DecidableEq, Repr

/-- `OrderItemModel`: price snapshot taken at order creation. -/
structure OrderItem where
  id : Nat
  order_id : Nat
  movie_id : Nat
  price_at_order : Int
deriving DecidableEq, Repr

/-- `PaymentModel` as pay_order constructs it: `order_id`, `amount`,
`status`; `external_payment_id` exists in the schema but the route
never assigns it, so it stays `none`. -/
structure Payment where
  order_id : Nat
  amount : Int
  status : String
  external_payment_id : Option String := none
deriving DecidableEq, Repr

/-- `PaymentItemModel`; no route ever writes one, the table only shows
up in the schema (`src/source/database/models/payments.py`). -/
structure PaymentItem where
  payment_id : Nat
  order_item_id : Nat
  price_at_payment : Int
deriving DecidableEq, Repr

/-- The whole store: one list of rows per table. -/
structure DB where
  users : List User
  movies : List Movie
  carts : List Cart
  cartItems : List CartItem
  purchased : List Purchased
  orders : List Order
  orderItems : List OrderItem
  payments : List Payment
  paymentItems : List PaymentItem
deriving DecidableEq, Repr

/-- Next autoincrement id for a table given the ids in use. -/
def freshId (ids : List Nat) : Nat :=
  ids.foldr max 0 + 1

/-- `select(OrderModel).where(OrderModel.id == oid)`, first row. -/
def orderById (db : DB) (oid : Nat) : Option Order :=
  (db.orders.filter (fun o => o.id == oid)).head?

/-- `select(OrderItemModel).where(OrderItemModel.order_id == oid)`. -/
def itemsOfOrder (db : DB) (oid : Nat) : List OrderItem :=
  db.orderItems.filter (fun it => it.order_id == oid)

/-- `select(UserModel).where(UserModel.id == uid)`, first row. -/
def userById (db : DB) (uid : Nat) : Option User :=
  (db.users.filter (fun u => u.id == uid)).head?

/-- `select(MovieModel).where(MovieModel.id == mid)`, first row. -/
def movieById (db : DB) (mid : Nat) : Option Movie :=
  (db.movies.filter (fun m => m.id == mid)).head?

/-- Response body of a route that returns `MessageSchema` or a plain
dict with a message. -/
def RouteResult := DB × Except Err String

/-- `OrderBaseSchema` (user_id, total_amount, status), the checkout
response body. -/
structure OrderResp where
  user_id : Nat
  total_amount : Int
  status : String
deriving DecidableEq, Repr

/-- The per-item loop of `create_order` (orders.py lines 74-89): for
each cart item, first the purchase-ledger check (400 "Movie already
purchased" on the first hit), then a catalog lookup whose result —
possibly `None`, the loop does not check — is appended to
`movies_in_order`. -/
def resolveCartMovies (db : DB) (uid : Nat) :
    List CartItem → Except Err (List (Option Movie))
  | [] => Except.ok []
  | item :: rest =>
    if ((db.purchased.filter
        (fun p => p.movie_id == item.movie_id && p.user_id == uid)).head?).isSome then
      Except.error (Err.http 400 ("Movie already purchased"))
    else
      match resolveCartMovies db uid rest with
      | Except.ok ms => Except.ok (movieById db item.movie_id :: ms)
      | Except.error e => Except.error e

/-- `sum([movie.price for movie in movies_in_order])` (orders.py line
93): a `None` entry raises `AttributeError` (uncaught, outside the
`try`). -/
def sumPrices : List (Option Movie) → Except Err Int
  | [] => Except.ok 0
  | some m :: rest =>
    match sumPrices rest with
    | Except.ok s => Except.ok (m.price + s)
    | Except.error e => Except.error e
  | none :: _ => Except.error (Err.py ("AttributeError"))

/-- The item-insert loop of `create_order` (orders.py lines 104-112):
each OrderItem is added and committed on its own.  `failAt = some k`
makes the k-th insert/commit raise; the surrounding `except` then
rolls back, which only discards the one uncommitted row — everything
committed before stays.  Returns the committed state and whether the
loop raised. -/
def insertOrderItems (oid : Nat) (k : Nat) (failAt : Option Nat) :
    DB → List Movie → DB × Bool
  | db, [] => (db, false)
  | db, m :: rest =>
    if failAt == some k then
      (db, true)
    else
      let it : OrderItem :=
        { id := freshId (db.orderItems.map (fun x => x.id)),
          order_id := oid, movie_id := m.id, price_at_order := m.price }
      insertOrderItems oid (k + 1) failAt
        { db with orderItems := db.orderItems ++ [it] } rest

/-- The `try` block of `create_order` (orders.py lines 95-116): commit
the PENDING Order row (line 102), then run the per-item insert loop.
`failAt = some k` injects a store failure at the k-th OrderItem
insert; the Order row has already been committed by then, so the
rollback at line 114 cannot remove it, and the handler answers 500
"Failed to create order" with the partial rows still visible. -/
def checkoutCommit (db : DB) (uid : Nat) (total_amount : Int)
    (movies : List Movie) (failAt : Option Nat) : DB × Except Err OrderResp :=
  match insertOrderItems (freshId (db.orders.map (fun o => o.id))) 0 failAt
      { db with orders := db.orders ++
          [{ id := freshId (db.orders.map (fun o => o.id)), user_id := uid,
             status := "pending", total_amount := total_amount }] }
      movies with
  | (dbf, true) =>
    (dbf, Except.error (Err.http 500 ("Failed to create order")))
  | (dbf, false) =>
    (dbf, Except.ok { user_id := uid, total_amount := total_amount,
                      status := "pending" })

/-- `create_order` (orders.py lines 58-121): cart lookup (404 "Cart
not found"), cart-items load (404 "Cart is empty"), the per-item
ledger/catalog loop (`resolveCartMovies`), the empty-list check (404
"No movies available for order"), the price sum (`sumPrices`), and the
committing `try` block (`checkoutCommit`).  Returns the committed
state together with the outcome. -/
def create_order (db : DB) (uid : Nat) (failAt : Option Nat) :
    DB × Except Err OrderResp :=
  match (db.carts.filter (fun c => c.user_id == uid)).head? with
  | none => (db, Except.error (Err.http 404 ("Cart not found")))
  | some cart =>
    if (db.cartItems.filter (fun it => it.cart_id == cart.id)).isEmpty then
      (db, Except.error (Err.http 404 ("Cart is empty")))
    else
      match resolveCartMovies db uid
          (db.cartItems.filter (fun it => it.cart_id == cart.id)) with
      | Except.error e => (db, Except.error e)
      | Except.ok movies_in_order =>
        if movies_in_order.isEmpty then
          (db, Except.error (Err.http 404 ("No movies available for order")))
        else
          match sumPrices movies_in_order with
          | Except.error e => (db, Except.error e)
          | Except.ok total_amount =>
            checkoutCommit db uid total_amount
              (movies_in_order.reduceOption) failAt

/-- `cancel_order` (orders.py lines 163-190): 404 when no order of
this user has this id, 400 "Order cannot be canceled" unless the
status is "pending", otherwise the single status update to
"canceled". -/
def cancel_order (db : DB) (uid oid : Nat) : DB × Except Err String :=
  match (db.orders.filter
      (fun o => o.user_id == uid && o.id == oid)).head? with
  | none => (db, Except.error (Err.http 404 ("Order not found")))
  | some order =>
    if order.status != "pending" then
      (db, Except.error (Err.http 400 ("Order cannot be canceled")))
    else
      let updated := db.orders.map
        (fun o => if o.id == order.id && o.user_id == uid then
          { o with status := "canceled" } else o)
      ({ db with orders := updated },
       Except.ok ("Order canceled successfully"))

/-- `get_orders` (orders.py lines 212-232): 404 "User not found" when
the user row is absent, 404 "No orders found" when the user has no
orders, otherwise the projected list. -/
def get_orders (db : DB) (uid : Nat) :
    DB × Except Err (List OrderResp) :=
  match userById db uid with
  | none => (db, Except.error (Err.http 404 ("User not found")))
  | some _ =>
    let orders := db.orders.filter (fun o => o.user_id == uid)
    if orders.isEmpty then
      (db, Except.error (Err.http 404 ("No orders found")))
    else
      (db, Except.ok (orders.map (fun o =>
        { user_id := o.user_id, total_amount := o.total_amount,
          status := o.status })))

/-- The column/relationship attributes of `OrderModel`
(`src/source/database/models/orders.py` lines 25-38): exactly the
names for which `getattr(OrderModel, sort_by)` succeeds. -/
def orderModelAttrs : List String :=
  ["id", "user_id", "created_at", "status", "total_amount",
   "user", "order_items", "payment"]

/-- The query `get_all_orders` hands to the store: which column it
sorts by, the direction, the optional status filter and the page
window.  The route builds it with `getattr(OrderModel, sort_by)` and
no further validation (orders.py lines 250-260). -/
structure OrdersQuery where
  sortField : String
  descending : Bool
  statusFilter : Option String
  page : Nat
  limit : Nat
deriving DecidableEq, Repr

/-- `get_all_orders` (orders.py lines 242-267).  A `sort_by` that is
not an attribute of `OrderModel` makes `getattr` raise
`AttributeError` (uncaught); any attribute name, whether or not it is
one of id/created_at/total_amount/status, is passed straight into the
`order_by` of the storage query.  The returned rows are the
status-filtered page (row order inside the page is delegated to the
store, represented by the `OrdersQuery`). -/
def get_all_orders (db : DB) (page limit : Nat) (sort_by sort_order : String)
    (statusFilter : Option String) :
    DB × Except Err (OrdersQuery × List OrderResp) :=
  if !(orderModelAttrs.contains sort_by) then
    (db, Except.error (Err.py ("AttributeError")))
  else
    let q : OrdersQuery :=
      { sortField := sort_by, descending := sort_order == "desc",
        statusFilter := statusFilter, page := page, limit := limit }
    let filtered : List Order :=
      match statusFilter with
      | some s => db.orders.filter (fun o => o.status == s)
      | none => db.orders
    let rows : List OrderResp :=
      ((filtered.drop ((page - 1) * limit)).take limit).map
        (fun o => { user_id := o.user_id, total_amount := o.total_amount,
                    status := o.status })
    (db, Except.ok (q, rows))

/-- `pay_order` (orders.py lines 309-386).  `gwRaises` — the Stripe
session call raises (transport failure); `urlTruthy` — the truthiness
of `session.success_url`, the value the route branches on at line 357
(falsy stands for the gateway-cancellation branch); `emailRaises` —
the confirmation mail call raises.  The route reads the order by id
only (not filtered by user), never checks `order.status`, never
updates it, and never writes PaymentItem or Purchased rows.  In the
cancellation branch the route raises HTTPException(400, "Payment
canceled") at line 375, but that raise sits inside the `try` whose
`except Exception` (line 379) replaces it with HTTPException(500,
"Failed to process payment"); the committed Payment row survives.
(The user row read at lines 312-314 is consumed only by the mail
step, so the embedding performs that read where it is consumed —
reads have no side effects.) -/
def pay_order (db : DB) (order_id uid : Nat)
    (gwRaises urlTruthy emailRaises : Bool) : DB × Except Err String :=
  if (itemsOfOrder db order_id).isEmpty then
    (db, Except.error (Err.http 404 ("Order not found")))
  else if ((itemsOfOrder db order_id).filter
      (fun it => (movieById db it.movie_id).isNone)).isEmpty = false then
    (db, Except.error (Err.http 404 ("Movie not found")))
  else
    match orderById db order_id with
    | none => (db, Except.error (Err.http 404 ("Order not found")))
    | some order =>
      if gwRaises then
        (db, Except.error (Err.http 500 ("Failed to process payment")))
      else if urlTruthy then
        let payment : Payment :=
          { order_id := order.id, amount := order.total_amount,
            status := "successful" }
        let db1 := { db with payments := db.payments ++ [payment] }
        match userById db uid with
        | none =>
          -- `user.email` on None: AttributeError inside the try,
          -- caught by `except Exception` → 500, payment committed.
          (db1, Except.error (Err.http 500 ("Failed to process payment")))
        | some _ =>
          if emailRaises then
            (db1, Except.error (Err.http 500 ("Failed to process payment")))
          else
            (db1, Except.ok ("Payment successful"))
      else
        let payment : Payment :=
          { order_id := order.id, amount := order.total_amount,
            status := "cancelled" }
        let db1 := { db with payments := db.payments ++ [payment] }
        (db1, Except.error (Err.http 500 ("Failed to process payment")))

/-- `create_cart` — the add-to-cart route (carts.py lines 51-115).
Sequence: user lookup (404 "User not found."), purchase-ledger check
(400 "You have already bought this movie"), movie lookup — note the
route raises 400 here, with detail "Movie not found", although its own
`responses` documentation (lines 38-47) declares 404 for that case —
then the cart get-or-create.  The cart lookup is
`select(CartModel).where(user_id == user_id)` (line 84): the condition
compares the request integer with itself, i.e. WHERE true, so the
first cart of the whole table is taken; a new cart for this user is
created and committed only when the table has no cart at all.  The
duplicate-item lookup (lines 93-96) filters cart items by `cart_id`
only, so it fires ("Movie is already in the cart.", 400) whenever the
selected cart has any item.  Finally the insert;
`insertRaises` injects a `SQLAlchemyError` there (caught: 400
"Invalid input data", the staged row discarded, everything committed
before kept).  `addItemStep` is the tail of the handler from line 93
on — the duplicate-item check and the insert — shared by the
cart-found and cart-created paths of `create_cart`. -/
def addItemStep (db1 : DB) (cart : Cart) (movie : Movie) (movie_id : Nat)
    (insertRaises : Bool) : DB × Except Err String :=
  if ((db1.cartItems.filter
      (fun it => it.cart_id == cart.id)).head?).isSome then
    (db1, Except.error (Err.http 400 ("Movie is already in the cart.")))
  else
    if insertRaises then
      (db1, Except.error (Err.http 400 ("Invalid input data")))
    else
      let item : CartItem :=
        { id := freshId (db1.cartItems.map (fun it => it.id)),
          cart_id := cart.id, movie_id := movie_id }
      ({ db1 with cartItems := db1.cartItems ++ [item] },
       Except.ok (movie.name ++ " added in cart successfully"))

/-- The add-to-cart handler itself (carts.py lines 51-115); see the
comment on `addItemStep` for the modelling of each step. -/
def create_cart (db : DB) (movie_id uid : Nat) (insertRaises : Bool) :
    DB × Except Err String :=
  match userById db uid with
  | none => (db, Except.error (Err.http 404 ("User not found.")))
  | some _ =>
    if ((db.purchased.filter
        (fun p => p.movie_id == movie_id && p.user_id == uid)).head?).isSome then
      (db, Except.error (Err.http 400 ("You have already bought this movie")))
    else
      match movieById db movie_id with
      | none => (db, Except.error (Err.http 400 ("Movie not found")))
      | some movie =>
        match db.carts.head? with
        | some cart => addItemStep db cart movie movie_id insertRaises
        | none =>
          addItemStep
            { db with carts := db.carts ++
                [{ id := freshId (db.carts.map (fun c => c.id)),
                   user_id := uid }] }
            { id := freshId (db.carts.map (fun c => c.id)), user_id := uid }
            movie movie_id insertRaises

/-- `remove_movie_from_cart` (carts.py lines 298-367).  User, movie
and cart lookups (the cart lookup is again WHERE true, line 324).  The
cart-item lookup (line 333) is `where(and_(cart_id == cart.id,
movie_id == movie_id))`: both conjuncts compare plain Python values,
so the statement is WHERE true (first cart item of the whole table)
when the path parameter `cart_id` equals the selected cart's id, and
WHERE false (404 "Cart item not found.") otherwise.  The delete is
committed first; the moderator lookup runs afterwards INSIDE the same
`try`, so when it raises a `SQLAlchemyError` (`modLookupRaises`) the
handler answers 500 "Request failed." although the deletion is already
durable.  (The moderator filter itself,
`.filter(UserGroupModel == UserGroupsEnum.MODERATOR)`, compares a
class with an enum value and is constantly false, so on the non-raising
path no notification task is ever enqueued.) -/
def remove_movie_from_cart (db : DB) (movie_id cart_id uid : Nat)
    (modLookupRaises : Bool) : DB × Except Err String :=
  match userById db uid with
  | none => (db, Except.error (Err.http 404 ("User not found.")))
  | some _ =>
    match movieById db movie_id with
    | none => (db, Except.error (Err.http 404 ("Movie not found.")))
    | some movie =>
      match db.carts.head? with
      | none => (db, Except.error (Err.http 404 ("Cart not found.")))
      | some cart =>
        match (if cart_id == cart.id then db.cartItems.head? else none) with
        | none => (db, Except.error (Err.http 404 ("Cart item not found.")))
        | some cart_item =>
          let db1 :=
            { db with cartItems :=
                db.cartItems.filter (fun it => !(it == cart_item)) }
          if modLookupRaises then
            (db1, Except.error (Err.http 500 ("Request failed.")))
          else
            (db1, Except.ok (movie.name ++ " removed from cart id "
              ++ toString cart.id ++ " successfully"))

/-- The price-relevant projection of `update_movie`
(`src/source/routes/movies.py` lines 440-520): the route copies every
non-relationship field of the update payload onto the movie row with
`setattr` — `price` among them — and commits; it touches no order or
order-item row. -/
def update_movie_price (db : DB) (movie_id : Nat) (newPrice : Int) :
    DB × Except Err String :=
  match movieById db movie_id with
  | none => (db, Except.error (Err.http 404 ("Movie not found")))
  | some _ =>
    let updated := db.movies.map
      (fun m => if m.id == movie_id then { m with price := newPrice }
                else m)
    ({ db with movies := updated }, Except.ok ("Movie updated"))

/-- The empty store. -/
def emptyDB : DB :=
  { users := [], movies := [], carts := [], cartItems := [],
    purchased := [], orders := [], orderItems := [], payments := [],
    paymentItems := [] }

/-- One user, one movie, one PENDING order of total 10 with one
OrderItem: the smallest payable state. -/
def dbPendingOrder : DB :=
  { emptyDB with
    users := [{ id := 1, email := "u@x.com" }],
    movies := [{ id := 5, name := "Dune", price := 10 }],
    orders := [{ id := 1, user_id := 1, status := "pending",
                 total_amount := 10 }],
    orderItems := [{ id := 1, order_id := 1, movie_id := 5,
                     price_at_order := 10 }] }

/-- Like `dbPendingOrder` but the order is already CANCELED. -/
def dbCanceledOrder : DB :=
  { dbPendingOrder with
    orders := [{ id := 1, user_id := 1, status := "canceled",
                 total_amount := 10 }] }

/-- Like `dbPendingOrder` but the order is already PAID. -/
def dbPaidOrder : DB :=
  { dbPendingOrder with
    orders := [{ id := 1, user_id := 1, status := "paid",
                 total_amount := 10 }] }

/-- A user with a two-line cart (movies priced 3 and 4), no orders
yet: the checkout-atomicity scenario. -/
def dbTwoItemCart : DB :=
  { emptyDB with
    users := [{ id := 1, email := "u@x.com" }],
    movies := [{ id := 5, name := "Alpha", price := 3 },
               { id := 6, name := "Beta", price := 4 }],
    carts := [{ id := 1, user_id := 1 }],
    cartItems := [{ id := 1, cart_id := 1, movie_id := 5 },
                  { id := 2, cart_id := 1, movie_id := 6 }] }

/-- Cart scenarios: user 1 owns the only cart, which holds movie 7;
user 1 has already purchased movie 5; user 2 has no cart; movie 9 is
free to buy; no movie 99 exists. -/
def dbCarts : DB :=
  { emptyDB with
    users := [{ id := 1, email := "a@x.com" }, { id := 2, email := "b@x.com" }],
    movies := [{ id := 5, name := "Alpha", price := 3 },
               { id := 7, name := "Dune", price := 10 },
               { id := 9, name := "Gamma", price := 6 }],
    purchased := [{ user_id := 1, movie_id := 5 }],
    carts := [{ id := 1, user_id := 1 }],
    cartItems := [{ id := 1, cart_id := 1, movie_id := 7 }] }

/-- The state after a fully successful checkout on `dbTwoItemCart`:
one PENDING order of total 7 with its two price-snapshot items. -/
def dbAfterCheckout : DB :=
  { dbTwoItemCart with
    orders := [{ id := 1, user_id := 1, status := "pending",
                 total_amount := 7 }],
    orderItems := [{ id := 1, order_id := 1, movie_id := 5,
                     price_at_order := 3 },
                   { id := 2, order_id := 1, movie_id := 6,
                     price_at_order := 4 }] }

/-- The response body of that checkout. -/
def respAfterCheckout : OrderResp :=
  { user_id := 1, total_amount := 7, status := "pending" }

/-- C9: for an existing user with zero orders, `get_orders` answers
404 "No orders found" instead of an empty list. -/
theorem C9_get_orders_404_on_empty (db : DB) (uid : Nat) (u : User)
    (hu : userById db uid = some u)
    (hno : db.orders.filter (fun o => o.user_id == uid) = []) :
    get_orders db uid = (db, Except.error (Err.http 404 ("No orders found"))) := by
  simp [get_orders, hu, hno]

/-- Witness for C9 at a concrete state: user 2 exists in `dbCarts`
and has no orders. -/
theorem C9_get_orders_404_on_empty_witness :
    get_orders dbCarts 2 =
      (dbCarts, Except.error (Err.http 404 ("No orders found"))) :=
  C9_get_orders_404_on_empty dbCarts 2 { id := 2, email := "b@x.com" }
    (by decide) (by decide)

/-- C7 counterexample: "user_id" is not in the spec's allow-list
{id, created_at, total_amount, status}, yet `get_all_orders` accepts
it, passes it through as the storage sort key and returns rows — no
validation error, no rejection before storage. -/
theorem C7_sort_key_passed_through :
    (["id", "created_at", "total_amount", "status"].contains ("user_id")) = false ∧
    get_all_orders dbPendingOrder 1 10 "user_id" "asc" none =
      (dbPendingOrder, Except.ok
        ({ sortField := "user_id", descending := false, statusFilter := none,
           page := 1, limit := 10 },
         [{ user_id := 1, total_amount := 10, status := "pending" }])) := by
  decide

/-- C7 amended: `get_all_orders` validates against no allow-list at
all.  Any attribute name of `OrderModel` — whether or not it is one of
id/created_at/total_amount/status — is passed straight through as the
storage sort key, and a `sort_by` that is not an `OrderModel`
attribute raises an uncaught `AttributeError` (a bare 500), not a
`ValidationError`. -/
theorem C7_no_allowlist (db : DB) (page limit : Nat) (sb so : String)
    (st : Option String) :
    (orderModelAttrs.contains sb = true →
      ∃ rows, get_all_orders db page limit sb so st =
        (db, Except.ok
          ({ sortField := sb, descending := so == "desc", statusFilter := st,
             page := page, limit := limit }, rows))) ∧
    (orderModelAttrs.contains sb = false →
      get_all_orders db page limit sb so st =
        (db, Except.error (Err.py ("AttributeError")))) := by
  constructor
  · intro h
    unfold get_all_orders
    rw [show (!(orderModelAttrs.contains sb)) = false by rw [h]; rfl]
    exact ⟨_, rfl⟩
  · intro h
    unfold get_all_orders
    rw [show (!(orderModelAttrs.contains sb)) = true by rw [h]; rfl]
    rfl

/-- Witness for C7 at a concrete state: the real column "user_id" is
passed through, and the non-attribute "bogus" raises AttributeError. -/
theorem C7_no_allowlist_witness :
    (∃ rows, get_all_orders dbPendingOrder 1 10 "user_id" "asc" none =
      (dbPendingOrder, Except.ok
        ({ sortField := "user_id", descending := false, statusFilter := none,
           page := 1, limit := 10 }, rows))) ∧
    get_all_orders dbPendingOrder 1 10 "bogus" "asc" none =
      (dbPendingOrder, Except.error (Err.py ("AttributeError"))) :=
  ⟨(C7_no_allowlist dbPendingOrder 1 10 "user_id" "asc" none).1 (by decide),
   (C7_no_allowlist dbPendingOrder 1 10 "bogus" "asc" none).2 (by decide)⟩

/-- C3: evaluating `create_order` on a two-line cart with a store
failure injected at the second OrderItem insert.  The Order row
(committed at orders.py line 102) and the first OrderItem (committed
at line 111) remain visible after the 500 "Failed to create order";
the rollback at line 114 only discards the uncommitted second item.
So checkout is not atomic: a failed checkout leaves an Order with a
strict subset of its items. -/
theorem C3_partial_checkout_committed :
    create_order dbTwoItemCart 1 (some 1) =
      ({ dbTwoItemCart with
          orders := [{ id := 1, user_id := 1, status := "pending",
                       total_amount := 7 }],
          orderItems := [{ id := 1, order_id := 1, movie_id := 5,
                           price_at_order := 3 }] },
       Except.error (Err.http 500 ("Failed to create order"))) := by
  decide

/-- C6: in `create_cart`, an unknown movie is answered with HTTP 400
(detail "Movie not found"), not the 404 NotFound that the claim and
the route's own `responses` documentation state; the already-purchased
and already-in-cart checks do fail with Conflict-class 400, the former
leaving the store untouched (no Cart row). -/
theorem C6_unknown_movie_is_400 :
    movieById dbCarts 99 = none ∧
    create_cart dbCarts 99 1 false =
      (dbCarts, Except.error (Err.http 400 ("Movie not found"))) ∧
    create_cart dbCarts 5 1 false =
      (dbCarts, Except.error (Err.http 400 ("You have already bought this movie"))) ∧
    create_cart dbCarts 7 1 false =
      (dbCarts, Except.error (Err.http 400 ("Movie is already in the cart."))) := by
  decide

/-- C4: evaluating `pay_order` on a PENDING order when the gateway
reports cancellation.  A Payment with status "cancelled" is committed
and the order stays "pending" (it can be paid again — the third
conjunct pays it once more successfully), but the caller receives 500
"Failed to process payment": the route's own
HTTPException(400, "Payment canceled") at orders.py line 375 is
swallowed by the `except Exception` at line 379. -/
theorem C4_cancellation_becomes_500 :
    pay_order dbPendingOrder 1 1 false false false =
      ({ dbPendingOrder with
          payments := [{ order_id := 1, amount := 10, status := "cancelled" }] },
       Except.error (Err.http 500 ("Failed to process payment"))) ∧
    (orderById (pay_order dbPendingOrder 1 1 false false false).1 1).map
        (fun o => o.status) = some ("pending") ∧
    (pay_order (pay_order dbPendingOrder 1 1 false false false).1 1 1
        false true false).2 = Except.ok ("Payment successful") := by
  decide

/-- `pay_order` never touches the orders table: whatever the inputs
and gateway outcome, the resulting store has the same orders rows
(in particular no status ever becomes "paid"). -/
theorem pay_order_preserves_orders (db : DB) (oid uid : Nat) (g u e : Bool) :
    (pay_order db oid uid g u e).1.orders = db.orders := by
  unfold pay_order
  repeat' split
  all_goals rfl

/-- `pay_order` never touches the order-items table. -/
theorem pay_order_preserves_orderItems (db : DB) (oid uid : Nat) (g u e : Bool) :
    (pay_order db oid uid g u e).1.orderItems = db.orderItems := by
  unfold pay_order
  repeat' split
  all_goals rfl

/-- C1 counterexample: paying a CANCELED order.  The claim says the
pay operation must fail with Conflict ("order not payable") unless the
status is PENDING; `pay_order` has no status check at all, so the call
succeeds. -/
theorem C1_pay_canceled_order_succeeds :
    (orderById dbCanceledOrder 1).map (fun o => o.status) = some ("canceled") ∧
    (pay_order dbCanceledOrder 1 1 false true false).2 =
      Except.ok ("Payment successful") := by
  decide

/-- C1 amended: the cancel half of the claim holds — `cancel_order`
fails 400 "Order cannot be canceled" unless the order's status is
"pending", leaving the store untouched — but `pay_order` performs no
status check whatsoever and never modifies any order row, so the
failure-on-non-PENDING-pay part of the claim has no counterpart in the
code (and no operation ever produces the PENDING→PAID transition). -/
theorem C1_cancel_guard_pay_unchecked (db : DB) (uid oid : Nat) (o : Order)
    (g u e : Bool) :
    ((db.orders.filter (fun x => x.user_id == uid && x.id == oid)).head? = some o →
      o.status ≠ "pending" →
      cancel_order db uid oid =
        (db, Except.error (Err.http 400 ("Order cannot be canceled")))) ∧
    (pay_order db oid uid g u e).1.orders = db.orders := by
  constructor
  · intro h1 h2
    simp [cancel_order, h1, h2]
  · exact pay_order_preserves_orders db oid uid g u e

/-- Witness for C1 at a concrete state: canceling an already PAID
order is refused and the store is unchanged, and paying it leaves the
orders table as it was. -/
theorem C1_cancel_guard_pay_unchecked_witness :
    cancel_order dbPaidOrder 1 1 =
      (dbPaidOrder, Except.error (Err.http 400 ("Order cannot be canceled"))) ∧
    (pay_order dbPaidOrder 1 1 false true false).1.orders = dbPaidOrder.orders :=
  ⟨(C1_cancel_guard_pay_unchecked dbPaidOrder 1 1
      { id := 1, user_id := 1, status := "paid", total_amount := 10 }
      false true false).1 (by decide) (by decide),
   (C1_cancel_guard_pay_unchecked dbPaidOrder 1 1
      { id := 1, user_id := 1, status := "paid", total_amount := 10 }
      false true false).2⟩

/-- C2 counterexample: a successful gateway payment on a PENDING
order.  The call reports success, but the order's status is still
"pending" (not PAID), no PurchaseRecord row was appended, no
PaymentItem row was written, and the single Payment row has
`external_payment_id = none`. -/
theorem C2_success_writes_no_side_rows :
    (pay_order dbPendingOrder 1 1 false true false).2 =
      Except.ok ("Payment successful") ∧
    (orderById (pay_order dbPendingOrder 1 1 false true false).1 1).map
      (fun o => o.status) = some ("pending") ∧
    (pay_order dbPendingOrder 1 1 false true false).1.purchased = [] ∧
    (pay_order dbPendingOrder 1 1 false true false).1.paymentItems = [] ∧
    (pay_order dbPendingOrder 1 1 false true false).1.payments =
      [{ order_id := 1, amount := 10, status := "successful",
         external_payment_id := none }] := by
  decide

/-- C2 amended: on gateway success (with the order, its items, their
movies and the user all present, and the confirmation mail not
raising), `pay_order` appends exactly one Payment row — status
"successful", amount = the order's total, `external_payment_id` left
unset — and changes nothing else: no PaymentItem rows, no
PurchaseRecord rows, and no order-status transition. -/
theorem C2_success_single_payment_row (db : DB) (oid uid : Nat)
    (o : Order) (u : User)
    (h1 : itemsOfOrder db oid ≠ [])
    (h2 : (itemsOfOrder db oid).filter
      (fun it => (movieById db it.movie_id).isNone) = [])
    (h3 : orderById db oid = some o)
    (h4 : userById db uid = some u) :
    pay_order db oid uid false true false =
      ({ db with payments := db.payments ++
          [{ order_id := o.id, amount := o.total_amount, status := "successful" }] },
       Except.ok ("Payment successful")) := by
  unfold pay_order
  rw [h3, h4, h2]
  rw [show (itemsOfOrder db oid).isEmpty = false by
    cases hit : itemsOfOrder db oid with
    | nil => exact absurd hit h1
    | cons a l => rfl]
  rfl

/-- Witness for C2 at a concrete state. -/
theorem C2_success_single_payment_row_witness :
    pay_order dbPendingOrder 1 1 false true false =
      ({ dbPendingOrder with payments :=
          [{ order_id := 1, amount := 10, status := "successful" }] },
       Except.ok ("Payment successful")) :=
  C2_success_single_payment_row dbPendingOrder 1 1
    { id := 1, user_id := 1, status := "pending", total_amount := 10 }
    { id := 1, email := "u@x.com" }
    (by decide) (by decide) (by decide) (by decide)

/-- C8 counterexample: removing the cart item and injecting a
`SQLAlchemyError` in the moderator lookup.  The deletion is committed
and durable (the cart-items table is empty afterwards), yet the caller
receives 500 "Request failed." — the failure of the notification
lookup does surface as an error on the removal request. -/
theorem C8_notify_failure_surfaces_500 :
    remove_movie_from_cart dbCarts 7 1 1 true =
      ({ dbCarts with cartItems := [] },
       Except.error (Err.http 500 ("Request failed."))) := by
  decide

/-- C8 amended: whenever a removal would succeed, injecting a failure
into the post-commit moderator lookup leaves the store in exactly the
same state (the committed deletion is never rolled back) but turns the
response into a 500 "Request failed." error — contrary to the claim,
the failure does surface to the caller. -/
theorem C8_commit_kept_error_surfaced (db db2 : DB) (m c u : Nat) (msg : String)
    (h : remove_movie_from_cart db m c u false = (db2, Except.ok msg)) :
    remove_movie_from_cart db m c u true =
      (db2, Except.error (Err.http 500 ("Request failed."))) := by
  unfold remove_movie_from_cart at h ⊢
  cases hu : userById db u with
  | none => simp only [hu] at h; simp at h
  | some uu =>
    simp only [hu] at h
    dsimp only
    cases hm : movieById db m with
    | none => simp only [hm] at h; simp at h
    | some mv =>
      simp only [hm] at h
      dsimp only
      cases hc : db.carts.head? with
      | none => simp only [hc] at h; simp at h
      | some cart =>
        simp only [hc] at h
        dsimp only
        cases hcc : (c == cart.id) with
        | false => simp only [hcc] at h; simp at h
        | true =>
          simp only [hcc] at h
          simp only [eq_self_iff_true, if_true]
          cases hi : db.cartItems.head? with
          | none => simp only [hi] at h; simp at h
          | some item =>
            simp only [hi] at h
            simp_all

/-- Witness for C8 at a concrete state. -/
theorem C8_commit_kept_error_surfaced_witness :
    remove_movie_from_cart dbCarts 7 1 1 true =
      ({ dbCarts with cartItems := [] },
       Except.error (Err.http 500 ("Request failed."))) :=
  C8_commit_kept_error_surfaced dbCarts ({ dbCarts with cartItems := [] })
    7 1 1 ("Dune removed from cart id 1 successfully") (by decide)

/-- C10 counterexample: user 2 has no cart, and their `add_item` call
for the purchasable movie 9 fails with the duplicate-item Conflict
("Movie is already in the cart.", raised off user 1's cart, the first
cart in the table, via the WHERE-true lookup) — yet the store is
completely unchanged: no Cart row for user 2 was created at all,
contradicting the claim that a newly created empty Cart row remains. -/
theorem C10_conflict_without_new_cart :
    dbCarts.carts.filter (fun ct => ct.user_id == 2) = [] ∧
    create_cart dbCarts 9 2 false =
      (dbCarts, Except.error (Err.http 400 ("Movie is already in the cart."))) := by
  decide

/-- C10 amended: the cart get-or-create commit does precede the
duplicate-item check, but in any store satisfying the CartItem→Cart
foreign key, whenever `create_cart` fails with the duplicate-item
Conflict the store is returned unchanged — a cart already existed (the
WHERE-true lookup found it), and a brand-new cart can never trigger
the duplicate Conflict in the same call because it has no items. -/
theorem C10_conflict_implies_preexisting_cart (db : DB) (m u : Nat) (i : Bool)
    (hfk : ∀ it ∈ db.cartItems, ∃ ct ∈ db.carts, ct.id = it.cart_id)
    (hconf : (create_cart db m u i).2 =
      Except.error (Err.http 400 ("Movie is already in the cart."))) :
    (create_cart db m u i).1 = db ∧ db.carts ≠ [] := by
  unfold create_cart at hconf ⊢
  cases hu : userById db u with
  | none => simp only [hu] at hconf; simp at hconf
  | some uu =>
    simp only [hu] at hconf
    dsimp only
    by_cases hp : ((db.purchased.filter
        (fun p => p.movie_id == m && p.user_id == u)).head?).isSome
    · rw [if_pos hp] at hconf; simp at hconf
    · rw [if_neg hp] at hconf
      rw [if_neg hp]
      cases hm : movieById db m with
      | none => simp only [hm] at hconf; simp at hconf
      | some mv =>
        simp only [hm] at hconf
        dsimp only
        cases hc : db.carts.head? with
        | none =>
          simp only [hc] at hconf
          have hnil : db.carts = [] := by
            cases hcs : db.carts with
            | nil => rfl
            | cons a l => rw [hcs] at hc; simp at hc
          have hitems : db.cartItems = [] := by
            cases hits : db.cartItems with
            | nil => rfl
            | cons a l =>
              obtain ⟨ct, hct, _⟩ := hfk a (by rw [hits]; exact List.mem_cons_self a l)
              rw [hnil] at hct
              simp at hct
          unfold addItemStep at hconf
          simp only [hitems] at hconf
          cases i with
          | false => simp at hconf
          | true => simp at hconf
        | some cart =>
          simp only [hc] at hconf
          dsimp only
          have hne : db.carts ≠ [] := by
            intro hnil
            rw [hnil] at hc
            simp at hc
          unfold addItemStep at hconf ⊢
          by_cases hdup : ((db.cartItems.filter
              (fun it => it.cart_id == cart.id)).head?).isSome
          · rw [if_pos hdup]
            exact ⟨rfl, hne⟩
          · rw [if_neg hdup] at hconf
            cases i with
            | false => simp at hconf
            | true => simp at hconf

/-- Witness for C10 at a concrete state. -/
theorem C10_conflict_implies_preexisting_cart_witness :
    (create_cart dbCarts 9 2 false).1 = dbCarts ∧ dbCarts.carts ≠ [] :=
  C10_conflict_implies_preexisting_cart dbCarts 9 2 false
    (by decide) (by decide)

/-- When the price-summing loop of checkout succeeds, the total is the
sum of the prices of the (all-present) movies. -/
theorem sumPrices_ok_eq (ms : List (Option Movie)) (t : Int)
    (h : sumPrices ms = Except.ok t) :
    t = ((ms.reduceOption).map (fun m => m.price)).sum := by
  induction ms generalizing t with
  | nil =>
    simp only [sumPrices] at h
    cases h
    simp
  | cons head tail ih =>
    cases head with
    | none => simp [sumPrices] at h
    | some m =>
      simp only [sumPrices] at h
      cases hs : sumPrices tail with
      | error e => rw [hs] at h; exact absurd h (by simp)
      | ok s =>
        rw [hs] at h
        cases h
        rw [List.reduceOption_cons_of_some]
        simp only [List.map_cons, List.sum_cons]
        rw [ih s hs]

/-- Shape of the item-insert loop: it only ever appends OrderItem rows
(all pointing at the given order id), and when it completes without a
failure the appended price snapshots are exactly the movies'
prices. -/
theorem insertOrderItems_shape (oid : Nat) (movies : List Movie) :
    ∀ (k : Nat) (fa : Option Nat) (db : DB),
    ∃ items : List OrderItem,
      (insertOrderItems oid k fa db movies).1 =
        { db with orderItems := db.orderItems ++ items } ∧
      (∀ it ∈ items, it.order_id = oid) ∧
      ((insertOrderItems oid k fa db movies).2 = false →
        items.map (fun it => it.price_at_order) =
          movies.map (fun m => m.price)) := by
  induction movies with
  | nil =>
    intro k fa db
    refine ⟨[], by simp [insertOrderItems], by simp, fun _ => by simp⟩
  | cons m rest ih =>
    intro k fa db
    by_cases hf : (fa == some k) = true
    · refine ⟨[], by simp [insertOrderItems, hf], by simp, fun h2 => ?_⟩
      simp [insertOrderItems, hf] at h2
    · have e : insertOrderItems oid k fa db (m :: rest) =
          insertOrderItems oid (k + 1) fa
            { db with orderItems := db.orderItems ++
                [{ id := freshId (db.orderItems.map (fun x => x.id)),
                   order_id := oid, movie_id := m.id,
                   price_at_order := m.price }] } rest := by
        simp [insertOrderItems, hf]
      obtain ⟨items, h1, h2, h3⟩ := ih (k + 1) fa
        ({ db with orderItems := db.orderItems ++
            [{ id := freshId (db.orderItems.map (fun x => x.id)),
               order_id := oid, movie_id := m.id,
               price_at_order := m.price }] })
      refine ⟨{ id := freshId (db.orderItems.map (fun x => x.id)),
                order_id := oid, movie_id := m.id,
                price_at_order := m.price } :: items, ?_, ?_, ?_⟩
      · rw [e, h1]
        simp
      · intro it hit
        rcases List.mem_cons.mp hit with hh | hh
        · rw [hh]
        · exact h2 it hh
      · intro hfl
        rw [e] at hfl
        simp only [List.map_cons]
        rw [h3 hfl]

/-- The committing block returns the state of the insert loop, whatever
the injected failure. -/
theorem checkoutCommit_fst (db : DB) (uid : Nat) (t : Int)
    (ms : List Movie) (fa : Option Nat) :
    (checkoutCommit db uid t ms fa).1 =
      (insertOrderItems (freshId (db.orders.map (fun o => o.id))) 0 fa
        { db with orders := db.orders ++
            [{ id := freshId (db.orders.map (fun o => o.id)), user_id := uid,
               status := "pending", total_amount := t }] } ms).1 := by
  unfold checkoutCommit
  split
  · rename_i heq
    rw [heq]
  · rename_i heq
    rw [heq]

/-- A successful committing block means the insert loop did not fail,
and fixes the response body. -/
theorem checkoutCommit_snd_ok (db : DB) (uid : Nat) (t : Int)
    (ms : List Movie) (fa : Option Nat) (resp : OrderResp)
    (h : (checkoutCommit db uid t ms fa).2 = Except.ok resp) :
    (insertOrderItems (freshId (db.orders.map (fun o => o.id))) 0 fa
        { db with orders := db.orders ++
            [{ id := freshId (db.orders.map (fun o => o.id)), user_id := uid,
               status := "pending", total_amount := t }] } ms).2 = false ∧
      resp = { user_id := uid, total_amount := t, status := "pending" } := by
  unfold checkoutCommit at h
  split at h
  · exact absurd h (by simp)
  · rename_i heq
    refine ⟨by rw [heq], ?_⟩
    cases h
    rfl

/-- `update_movie` (the catalog price update) never touches orders. -/
theorem update_movie_price_preserves_orders (db : DB) (mid : Nat) (p : Int) :
    (update_movie_price db mid p).1.orders = db.orders := by
  unfold update_movie_price
  repeat' split
  all_goals rfl

/-- `update_movie` never touches order items, so every
`price_at_order` snapshot survives a catalog price change. -/
theorem update_movie_price_preserves_orderItems (db : DB) (mid : Nat) (p : Int) :
    (update_movie_price db mid p).1.orderItems = db.orderItems := by
  unfold update_movie_price
  repeat' split
  all_goals rfl

/-- `cancel_order` never touches order items. -/
theorem cancel_order_preserves_orderItems (db : DB) (u o : Nat) :
    (cancel_order db u o).1.orderItems = db.orderItems := by
  unfold cancel_order
  repeat' split
  all_goals rfl

/-- `cancel_order` only ever rewrites the status column: every order
keeps its id and its `total_amount`. -/
theorem cancel_order_preserves_id_total (db : DB) (u o : Nat) :
    (cancel_order db u o).1.orders.map (fun x => (x.id, x.total_amount)) =
      db.orders.map (fun x => (x.id, x.total_amount)) := by
  unfold cancel_order
  repeat' split
  · rfl
  · rfl
  · simp only [List.map_map]
    apply List.map_congr_left
    intro a _
    simp only [Function.comp_apply, Prod.mk.injEq]
    refine ⟨?_, ?_⟩ <;> (split <;> rfl)

/-- The add-to-cart handler never touches orders. -/
theorem create_cart_preserves_orders (db : DB) (m u : Nat) (i : Bool) :
    (create_cart db m u i).1.orders = db.orders := by
  unfold create_cart addItemStep
  repeat' split
  all_goals rfl

/-- The add-to-cart handler never touches order items. -/
theorem create_cart_preserves_orderItems (db : DB) (m u : Nat) (i : Bool) :
    (create_cart db m u i).1.orderItems = db.orderItems := by
  unfold create_cart addItemStep
  repeat' split
  all_goals rfl

/-- The cart-item removal handler never touches orders. -/
theorem remove_preserves_orders (db : DB) (m c u : Nat) (b : Bool) :
    (remove_movie_from_cart db m c u b).1.orders = db.orders := by
  unfold remove_movie_from_cart
  repeat' split
  all_goals rfl

/-- The cart-item removal handler never touches order items. -/
theorem remove_preserves_orderItems (db : DB) (m c u : Nat) (b : Bool) :
    (remove_movie_from_cart db m c u b).1.orderItems = db.orderItems := by
  unfold remove_movie_from_cart
  repeat' split
  all_goals rfl

/-- Case analysis of checkout: either it failed before the first
commit (store unchanged, an error is returned), or it committed
exactly one new PENDING order for the requesting user together with a
batch of OrderItem rows pointing at it — and when the call as a whole
succeeded, the order's `total_amount` is the sum of the committed
`price_at_order` snapshots and the response carries that total. -/
theorem create_order_cases (db : DB) (uid : Nat) (fa : Option Nat) :
    ((create_order db uid fa).1 = db ∧
      ∃ e, (create_order db uid fa).2 = Except.error e) ∨
    (∃ (o : Order) (items : List OrderItem),
      (create_order db uid fa).1 =
        { db with orders := db.orders ++ [o],
                  orderItems := db.orderItems ++ items } ∧
      o.id = freshId (db.orders.map (fun x => x.id)) ∧
      o.status = "pending" ∧ o.user_id = uid ∧
      (∀ it ∈ items, it.order_id = o.id) ∧
      (∀ resp, (create_order db uid fa).2 = Except.ok resp →
        o.total_amount = (items.map (fun it => it.price_at_order)).sum ∧
        resp.total_amount = o.total_amount)) := by
  unfold create_order
  cases hcart : (db.carts.filter (fun c => c.user_id == uid)).head? with
  | none => exact Or.inl ⟨rfl, ⟨_, rfl⟩⟩
  | some cart =>
    dsimp only
    by_cases hempty :
        ((db.cartItems.filter (fun it => it.cart_id == cart.id)).isEmpty) = true
    · rw [if_pos hempty]
      exact Or.inl ⟨rfl, ⟨_, rfl⟩⟩
    · rw [if_neg hempty]
      cases hres : resolveCartMovies db uid
          (db.cartItems.filter (fun it => it.cart_id == cart.id)) with
      | error e => exact Or.inl ⟨rfl, ⟨_, rfl⟩⟩
      | ok ms =>
        dsimp only
        by_cases hms : (ms.isEmpty) = true
        · rw [if_pos hms]
          exact Or.inl ⟨rfl, ⟨_, rfl⟩⟩
        · rw [if_neg hms]
          cases hsum : sumPrices ms with
          | error e => exact Or.inl ⟨rfl, ⟨_, rfl⟩⟩
          | ok t =>
            dsimp only
            right
            obtain ⟨items, h1, h2, h3⟩ :=
              insertOrderItems_shape (freshId (db.orders.map (fun o => o.id)))
                (ms.reduceOption) 0 fa
                ({ db with orders := db.orders ++
                    [{ id := freshId (db.orders.map (fun o => o.id)),
                       user_id := uid, status := "pending",
                       total_amount := t }] })
            refine ⟨{ id := freshId (db.orders.map (fun o => o.id)),
                      user_id := uid, status := "pending",
                      total_amount := t }, items, ?_, rfl, rfl, rfl, h2, ?_⟩
            · rw [checkoutCommit_fst, h1]
            · intro resp hresp
              obtain ⟨hflag, hrespeq⟩ :=
                checkoutCommit_snd_ok db uid t (ms.reduceOption) fa resp hresp
              constructor
              · rw [h3 hflag]
                exact sumPrices_ok_eq ms t hsum
              · rw [hrespeq]

/-- Checkout only ever appends rows to the orders and order-items
tables: rows that existed before any checkout attempt survive it
untouched. -/
theorem create_order_appends (db : DB) (uid : Nat) (fa : Option Nat) :
    ∃ (os : List Order) (its : List OrderItem),
      (create_order db uid fa).1.orders = db.orders ++ os ∧
      (create_order db uid fa).1.orderItems = db.orderItems ++ its := by
  rcases create_order_cases db uid fa with ⟨h1, _⟩ | ⟨o, items, h1, _⟩
  · exact ⟨[], [], by rw [h1]; simp, by rw [h1]; simp⟩
  · exact ⟨[o], items, by rw [h1], by rw [h1]⟩

/-- C5 amended: a successful checkout appends exactly one new PENDING order
whose `total_amount` is the sum of the `price_at_order` snapshots of
its (also appended) OrderItem rows, the response carries that total —
and no later operation of the pipeline changes any order's
`total_amount` or any item's `price_at_order`: a catalog price update,
a cancel (which rewrites only the status), a payment, any cart
operation, and any later checkout (which only appends fresh rows) all
leave the existing snapshots intact. -/
theorem C5_total_is_snapshot_sum_and_immutable (db db1 : DB) (uid : Nat)
    (fa : Option Nat) (resp : OrderResp)
    (h : create_order db uid fa = (db1, Except.ok resp)) :
    (∃ (o : Order) (newItems : List OrderItem),
      db1.orders = db.orders ++ [o] ∧
      db1.orderItems = db.orderItems ++ newItems ∧
      (∀ it ∈ newItems, it.order_id = o.id) ∧
      o.status = "pending" ∧ o.user_id = uid ∧
      o.total_amount = (newItems.map (fun it => it.price_at_order)).sum ∧
      resp.total_amount = o.total_amount) ∧
    (∀ mid p, (update_movie_price db1 mid p).1.orders = db1.orders ∧
      (update_movie_price db1 mid p).1.orderItems = db1.orderItems) ∧
    (∀ u2 o2,
      (cancel_order db1 u2 o2).1.orders.map (fun x => (x.id, x.total_amount)) =
        db1.orders.map (fun x => (x.id, x.total_amount)) ∧
      (cancel_order db1 u2 o2).1.orderItems = db1.orderItems) ∧
    (∀ oid2 uid2 g u e, (pay_order db1 oid2 uid2 g u e).1.orders = db1.orders ∧
      (pay_order db1 oid2 uid2 g u e).1.orderItems = db1.orderItems) ∧
    (∀ m2 u2 i2, (create_cart db1 m2 u2 i2).1.orders = db1.orders ∧
      (create_cart db1 m2 u2 i2).1.orderItems = db1.orderItems) ∧
    (∀ m2 c2 u2 b2,
      (remove_movie_from_cart db1 m2 c2 u2 b2).1.orders = db1.orders ∧
      (remove_movie_from_cart db1 m2 c2 u2 b2).1.orderItems = db1.orderItems) ∧
    (∀ u2 fa2, ∃ os its,
      (create_order db1 u2 fa2).1.orders = db1.orders ++ os ∧
      (create_order db1 u2 fa2).1.orderItems = db1.orderItems ++ its) := by
  have hfst : (create_order db uid fa).1 = db1 := by rw [h]
  have hsnd : (create_order db uid fa).2 = Except.ok resp := by rw [h]
  refine ⟨?_,
    fun mid p => ⟨update_movie_price_preserves_orders db1 mid p,
      update_movie_price_preserves_orderItems db1 mid p⟩,
    fun u2 o2 => ⟨cancel_order_preserves_id_total db1 u2 o2,
      cancel_order_preserves_orderItems db1 u2 o2⟩,
    fun oid2 uid2 g u e => ⟨pay_order_preserves_orders db1 oid2 uid2 g u e,
      pay_order_preserves_orderItems db1 oid2 uid2 g u e⟩,
    fun m2 u2 i2 => ⟨create_cart_preserves_orders db1 m2 u2 i2,
      create_cart_preserves_orderItems db1 m2 u2 i2⟩,
    fun m2 c2 u2 b2 => ⟨remove_preserves_orders db1 m2 c2 u2 b2,
      remove_preserves_orderItems db1 m2 c2 u2 b2⟩,
    fun u2 fa2 => create_order_appends db1 u2 fa2⟩
  rcases create_order_cases db uid fa with ⟨h1, e, h2⟩ | ⟨o, items, h1, _, hst, huid, hitems, hok⟩
  · rw [hsnd] at h2
    exact absurd h2 (by simp)
  · obtain ⟨hm, hre⟩ := hok resp hsnd
    refine ⟨o, items, ?_, ?_, hitems, hst, huid, hm, hre⟩
    · rw [← hfst, h1]
    · rw [← hfst, h1]

/-- Witness for C5 at a concrete state: checking out the two-line cart
(prices 3 and 4) commits one PENDING order of total 7 = 3 + 4 with the
two snapshot rows. -/
theorem C5_total_is_snapshot_sum_witness :
    ∃ (o : Order) (newItems : List OrderItem),
      dbAfterCheckout.orders = dbTwoItemCart.orders ++ [o] ∧
      dbAfterCheckout.orderItems = dbTwoItemCart.orderItems ++ newItems ∧
      (∀ it ∈ newItems, it.order_id = o.id) ∧
      o.status = "pending" ∧ o.user_id = 1 ∧
      o.total_amount = (newItems.map (fun it => it.price_at_order)).sum ∧
      respAfterCheckout.total_amount = o.total_amount :=
  (C5_total_is_snapshot_sum_and_immutable dbTwoItemCart dbAfterCheckout 1 none
    respAfterCheckout (by decide)).1

/-- C5 counterexample: a checkout on the two-line cart (prices 3 and
4) whose store fails at the second OrderItem insert leaves a committed
order — created by checkout, visible and payable afterwards — whose
`total_amount` is 7 while the `price_at_order` snapshots of its
committed items sum to only 3: the claimed equality does not hold for
every order created by checkout. -/
theorem C5_partial_checkout_total_mismatch :
    (orderById (create_order dbTwoItemCart 1 (some 1)).1 1).map
      (fun o => o.total_amount) = some 7 ∧
    ((itemsOfOrder (create_order dbTwoItemCart 1 (some 1)).1 1).map
      (fun it => it.price_at_order)).sum = 3 ∧
    (7 : Int) ≠ 3 := by
  decide
